import Mathlib

/-!
Shallow embedding of the Weather-App source (src/src/App.js): the weather-code
classifier (`weatherCodeToText`, `weatherCodeToEmoji`), and the request
orchestrator (`fetchWeatherForCity`) together with the form submit handler
(`handleSubmit`).  Network effects are modelled by a `Network` record mapping
each request's inputs to the response the server would give; the React state
triple (weather, loading, error) is the `AppState` record, and a run records
which of the two HTTP calls were issued.
-/

namespace WeatherApp

/-- Embeds the `map` object literal of `weatherCodeToText` (App.js lines 14-43):
Open-Meteo weather codes to human text. -/
def weatherCodeMap : List (Int × String) :=
  [(0, "Clear sky"), (1, "Mainly clear"), (2, "Partly cloudy"), (3, "Overcast"),
   (45, "Fog"), (48, "Depositing rime fog"),
   (51, "Light drizzle"), (53, "Moderate drizzle"), (55, "Dense drizzle"),
   (56, "Freezing drizzle"), (57, "Dense freezing drizzle"),
   (61, "Slight rain"), (63, "Moderate rain"), (65, "Heavy rain"),
   (66, "Freezing rain"), (67, "Heavy freezing rain"),
   (71, "Light snow"), (73, "Moderate snow"), (75, "Heavy snow"), (77, "Snow grains"),
   (80, "Slight rain showers"), (81, "Moderate rain showers"), (82, "Violent rain showers"),
   (85, "Slight snow showers"), (86, "Heavy snow showers"),
   (95, "Thunderstorm"), (96, "Thunderstorm with slight hail"),
   (99, "Thunderstorm with heavy hail")]

/-- Embeds `weatherCodeToText` (App.js lines 12-45): `map[code] ?? "Unknown"`. -/
def weatherCodeToText (code : Int) : String :=
  match weatherCodeMap.lookup code with
  | some t => t
  | none => "Unknown"

/-- The default symbol returned by `weatherCodeToEmoji` when no rule matches
(App.js line 56).  The string is exactly the characters stored in the source
file, written with unicode escapes. -/
def defaultEmoji : String := "\uF8FF\u00FC\u00EE\u00DC"

/-- Embeds `weatherCodeToEmoji` (App.js lines 47-57): an ordered chain of
equality and set-membership tests; the string literals are exactly the
characters stored in the source file, written with unicode escapes. -/
def weatherCodeToEmoji (code : Int) : String :=
  if code = 0 then "\u201A\u00F2\u00C4\u00D4\u220F\u00E8"
  else if code ∈ ([1, 2] : List Int) then "\uF8FF\u00FC\u00E5\u00A7\u00D4\u220F\u00E8"
  else if code = 3 then "\u201A\u00F2\u00C5\u00D4\u220F\u00E8"
  else if code ∈ ([45, 48] : List Int) then "\uF8FF\u00FC\u00E5\u00B4\u00D4\u220F\u00E8"
  else if code ∈ ([51, 53, 55, 61, 63, 65, 80, 81, 82] : List Int) then
    "\uF8FF\u00FC\u00E5\u00DF\u00D4\u220F\u00E8"
  else if code ∈ ([56, 57, 66, 67] : List Int) then
    "\uF8FF\u00FC\u00DF\u00E4\uF8FF\u00FC\u00E5\u00DF\u00D4\u220F\u00E8"
  else if code ∈ ([71, 73, 75, 77, 85, 86] : List Int) then "\u201A\u00F9\u00D1\u00D4\u220F\u00E8"
  else if code ∈ ([95, 96, 99] : List Int) then "\u201A\u00F5\u00E0\u00D4\u220F\u00E8"
  else defaultEmoji

/-- The codes present in the description table: first components of
`weatherCodeMap`. -/
def knownCodes : List Int := weatherCodeMap.map Prod.fst

/-- The rules of `weatherCodeToEmoji` as data: each rule is the set of codes it
matches (as the source's array literal, with the two `code === n` equality
tests as singleton sets) paired with the symbol it returns, in source order. -/
def emojiRules : List (List Int × String) :=
  [([0], "\u201A\u00F2\u00C4\u00D4\u220F\u00E8"),
   ([1, 2], "\uF8FF\u00FC\u00E5\u00A7\u00D4\u220F\u00E8"),
   ([3], "\u201A\u00F2\u00C5\u00D4\u220F\u00E8"),
   ([45, 48], "\uF8FF\u00FC\u00E5\u00B4\u00D4\u220F\u00E8"),
   ([51, 53, 55, 61, 63, 65, 80, 81, 82], "\uF8FF\u00FC\u00E5\u00DF\u00D4\u220F\u00E8"),
   ([56, 57, 66, 67], "\uF8FF\u00FC\u00DF\u00E4\uF8FF\u00FC\u00E5\u00DF\u00D4\u220F\u00E8"),
   ([71, 73, 75, 77, 85, 86], "\u201A\u00F9\u00D1\u00D4\u220F\u00E8"),
   ([95, 96, 99], "\u201A\u00F5\u00E0\u00D4\u220F\u00E8")]

/-- First-match evaluation of a rule list, with the classifier's default symbol
when no rule matches. -/
def applyRules : List (List Int × String) → Int → String
  | [], _ => defaultEmoji
  | (s, e) :: rest, c => if c ∈ s then e else applyRules rest c

/-- One candidate of the geocoding response (`geoJson.results[0]`, App.js
lines 84-85): `latitude`, `longitude`, `name`, `country`, optional `admin1`.
An absent `admin1` field is `none`; a present one is `some` its string value. -/
structure GeoResult where
  latitude : Rat
  longitude : Rat
  name : String
  country : String
  admin1 : Option String
  deriving DecidableEq

/-- The geocoding HTTP response: `ok` is the HTTP success flag
(`geoRes.ok`), `results` is the optional `results` array of the JSON body
(`none` when the key is missing). -/
structure GeoResponse where
  ok : Bool
  results : Option (List GeoResult)
  deriving DecidableEq

/-- The `current_weather` object of the forecast body (App.js line 100). -/
structure CurrentWeather where
  temperature : Rat
  windspeed : Rat
  winddirection : Rat
  weathercode : Int
  time : String
  deriving DecidableEq

/-- The forecast HTTP response: `ok` is the HTTP success flag
(`forecastRes.ok`), `current_weather` is the optional payload
(`forecastJson.current_weather`, `none` when missing). -/
structure ForecastResponse where
  ok : Bool
  current_weather : Option CurrentWeather
  deriving DecidableEq

/-- The environment: what each HTTP GET would return.  The geocoding request is
determined by the (trimmed) city name, the forecast request by the resolved
coordinates. -/
structure Network where
  geo : String → GeoResponse
  forecast : Rat → Rat → ForecastResponse

/-- The object stored by `setWeather` on success (App.js lines 96-101). -/
structure Weather where
  cityName : String
  latitude : Rat
  longitude : Rat
  current : CurrentWeather
  deriving DecidableEq

/-- The React state relevant to a search: `weather`, `loading`, `error`
(App.js lines 60-63). -/
structure AppState where
  weather : Option Weather
  loading : Bool
  error : Option String
  deriving DecidableEq

/-- The outcome of running the submit handler or the orchestrator: the final
state, plus whether the geocoding and the forecast HTTP calls were issued. -/
structure RunResult where
  state : AppState
  geoCalled : Bool
  forecastCalled : Bool
  deriving DecidableEq

/-- The not-found message (App.js line 80). -/
def cityNotFoundMsg : String :=
  "City not found. Try another name (e.g., \x27Delhi\x27, \x27San Francisco\x27)."

/-- Embeds the display-name template of App.js line 97:
`` `${resolvedName}${admin1 ? ", " + admin1 : ""}, ${country}` ``.
JavaScript truthiness: an `admin1` that is `undefined` (`none`) or the empty
string is falsy, so its segment is omitted. -/
def composeCityName (name : String) (admin1 : Option String) (country : String) : String :=
  name ++ (match admin1 with
           | some a => if a = "" then "" else ", " ++ a
           | none => "") ++ ", " ++ country

/-- The state updates performed on entry to `fetchWeatherForCity`
(App.js lines 66-68): `setLoading(true); setError(null); setWeather(null)`. -/
def startFetch (s : AppState) : AppState :=
  { s with loading := true, error := none, weather := none }

/-- Embeds `fetchWeatherForCity` (App.js lines 65-107).  Each `throw` is
resolved through the `catch` (set `error` to the thrown message) and the
`finally` (set `loading` to `false`) of the source. -/
def fetchWeatherForCity (net : Network) (s : AppState) (cityName : String) : RunResult :=
  let s0 := startFetch s
  let geoRes := net.geo cityName
  if geoRes.ok = false then
    { state := { s0 with error := some "Geocoding request failed", loading := false },
      geoCalled := true, forecastCalled := false }
  else
    match geoRes.results with
    | none =>
        { state := { s0 with error := some cityNotFoundMsg, loading := false },
          geoCalled := true, forecastCalled := false }
    | some [] =>
        { state := { s0 with error := some cityNotFoundMsg, loading := false },
          geoCalled := true, forecastCalled := false }
    | some (top :: _) =>
        let forecastRes := net.forecast top.latitude top.longitude
        if forecastRes.ok = false then
          { state := { s0 with error := some "Weather request failed", loading := false },
            geoCalled := true, forecastCalled := true }
        else
          match forecastRes.current_weather with
          | none =>
              { state :=
                  { s0 with error := some "No current weather available", loading := false },
                geoCalled := true, forecastCalled := true }
          | some current =>
              let w : Weather :=
                { cityName := composeCityName top.name top.admin1 top.country,
                  latitude := top.latitude, longitude := top.longitude, current := current }
              { state := { s0 with weather := some w, loading := false },
                geoCalled := true, forecastCalled := true }

/-- Embeds the `trim()` call of App.js line 111: drop whitespace characters
from both ends of the string. -/
def jsTrim (s : String) : String :=
  ⟨((s.data.dropWhile Char.isWhitespace).reverse.dropWhile Char.isWhitespace).reverse⟩

/-- Embeds `handleSubmit` (App.js lines 109-117): trim the query; if it is
empty, set the validation error and stop; otherwise run the orchestrator. -/
def handleSubmit (net : Network) (s : AppState) (city : String) : RunResult :=
  let q := jsTrim city
  if q = "" then
    { state := { s with error := some "Please enter a city name." },
      geoCalled := false, forecastCalled := false }
  else fetchWeatherForCity net s q

/-! Concrete data used by the witnesses. -/

/-- A sample current-weather payload (the end-to-end example of the spec). -/
def sampleWeather : CurrentWeather :=
  { temperature := 15, windspeed := 10, winddirection := 200,
    weathercode := 3, time := "2024-01-01T12:00" }

/-- A sample geocoding candidate without `admin1`. -/
def londonGeo : GeoResult :=
  { latitude := 51.5, longitude := -0.12, name := "London",
    country := "United Kingdom", admin1 := none }

/-- The initial React state. -/
def emptyState : AppState := { weather := none, loading := false, error := none }

/-- A network where both calls succeed. -/
def okNet : Network :=
  { geo := fun _ => { ok := true, results := some [londonGeo] },
    forecast := fun _ _ => { ok := true, current_weather := some sampleWeather } }

/-- A network whose geocoding call fails at the HTTP level. -/
def badGeoNet : Network :=
  { geo := fun _ => { ok := false, results := none },
    forecast := fun _ _ => { ok := true, current_weather := some sampleWeather } }

/-- A network whose forecast call fails at the HTTP level. -/
def badForecastNet : Network :=
  { geo := fun _ => { ok := true, results := some [londonGeo] },
    forecast := fun _ _ => { ok := false, current_weather := none } }

/-- A network whose geocoding call succeeds with an empty results array. -/
def noResultsNet : Network :=
  { geo := fun _ => { ok := true, results := some [] },
    forecast := fun _ _ => { ok := true, current_weather := some sampleWeather } }

/-- A network whose forecast response lacks the `current_weather` payload. -/
def noWeatherNet : Network :=
  { geo := fun _ => { ok := true, results := some [londonGeo] },
    forecast := fun _ _ => { ok := true, current_weather := none } }

/-! Helper lemmas. -/

/-- Trimming a string of whitespace characters yields the empty string. -/
theorem jsTrim_whitespace (s : String) (h : ∀ c ∈ s.data, c.isWhitespace) :
    jsTrim s = "" := by
  unfold jsTrim
  rw [List.dropWhile_eq_nil_iff.mpr h]
  rfl

/-- First-match evaluation of the rule list agrees with the source's if-chain. -/
theorem applyRules_emojiRules (c : Int) : applyRules emojiRules c = weatherCodeToEmoji c := by
  simp [applyRules, emojiRules, weatherCodeToEmoji]

/-- With pairwise-disjoint rule sets, first-match evaluation is invariant under
permuting the rules. -/
theorem applyRules_perm_invariant {l1 l2 : List (List Int × String)} (hp : l1.Perm l2)
    (c : Int) (hd : l1.Pairwise fun r1 r2 => ∀ x ∈ r1.1, x ∉ r2.1) :
    applyRules l1 c = applyRules l2 c := by
  induction hp with
  | nil => rfl
  | cons x hp ih =>
      rw [List.pairwise_cons] at hd
      by_cases hc : c ∈ x.1
      · simp [applyRules, hc]
      · simp only [applyRules, hc, if_false]
        exact ih hd.2
  | swap x y l =>
      rw [List.pairwise_cons] at hd
      obtain ⟨hyx, _⟩ := hd
      have hxy : ∀ z ∈ y.1, z ∉ x.1 := hyx x (List.mem_cons_self x l)
      by_cases hcy : c ∈ y.1
      · have hcx : c ∉ x.1 := hxy c hcy
        simp [applyRules, hcy, hcx]
      · by_cases hcx : c ∈ x.1 <;> simp [applyRules, hcy, hcx]
  | trans h1 _ ih1 ih2 =>
      refine (ih1 hd).trans (ih2 (hd.perm h1 ?_))
      intro a b hab z hzb hza
      exact hab z hza hzb

/-- The entry updates of the orchestrator produce the same state whatever the
prior state was. -/
theorem startFetch_const (s : AppState) :
    startFetch s = { weather := none, loading := true, error := none } := rfl

/-! Claim theorems. -/

/-- C1: for every query string that is empty or consists only of whitespace,
the submit handler sets the validation error "Please enter a city name." on the
prior state and issues neither the geocoding nor the forecast call. -/
theorem blank_query_validation (net : Network) (s : AppState) (city : String)
    (h : ∀ c ∈ city.data, c.isWhitespace) :
    handleSubmit net s city =
      { state := { s with error := some "Please enter a city name." },
        geoCalled := false, forecastCalled := false } := by
  simp [handleSubmit, jsTrim_whitespace city h]

/-- C1 witness: the three-space query is rejected with the validation error and
no network call. -/
theorem blank_query_validation_witness :
    handleSubmit okNet emptyState "   " =
      { state := { emptyState with error := some "Please enter a city name." },
        geoCalled := false, forecastCalled := false } :=
  blank_query_validation okNet emptyState "   " (by decide)

/-- C2 counterexample: a geocoding candidate whose `admin1` field is present
but the empty string.  The claim's template gives
"Paris" ++ ", " ++ "" ++ ", " ++ "France" = "Paris, , France", but the code
(JavaScript truthiness on `admin1`) omits the segment and produces
"Paris, France". -/
theorem composeCityName_empty_admin1_cex :
    composeCityName "Paris" (some "") "France" = "Paris, France" ∧
    composeCityName "Paris" (some "") "France" ≠
      "Paris" ++ ", " ++ "" ++ ", " ++ "France" := by decide

/-- C2 amended: the display string is `name ++ ", " ++ admin1 ++ ", " ++ country`
when `admin1` is present and nonempty, and `name ++ ", " ++ country` when
`admin1` is absent or present as the empty string (JavaScript truthiness); in
particular the Paris examples of the claim hold. -/
theorem composeCityName_spec :
    (∀ name country a : String, a ≠ "" →
        composeCityName name (some a) country = name ++ ", " ++ a ++ ", " ++ country) ∧
    (∀ name country : String,
        composeCityName name none country = name ++ ", " ++ country) ∧
    (∀ name country : String,
        composeCityName name (some "") country = name ++ ", " ++ country) ∧
    composeCityName "Paris" (some "Ile-de-France") "France" = "Paris, Ile-de-France, France" ∧
    composeCityName "Paris" none "France" = "Paris, France" := by
  refine ⟨?_, ?_, ?_, by decide, by decide⟩
  · intro name country a ha
    simp [composeCityName, ha, String.append_assoc]
  · intro name country
    simp [composeCityName]
  · intro name country
    simp [composeCityName]

/-- C2 witness: the nonempty-admin1 case applied to the Paris example. -/
theorem composeCityName_spec_witness :
    composeCityName "Paris" (some "Ile-de-France") "France" =
      "Paris" ++ ", " ++ "Ile-de-France" ++ ", " ++ "France" :=
  composeCityName_spec.1 "Paris" "France" "Ile-de-France" (by decide)

/-- C3: for every integer code in 0-99 that is not a key of the description
table, the text classifier returns "Unknown" and the symbol classifier returns
the default symbol. -/
theorem unknown_code_fallback :
    ∀ c ∈ Finset.Icc (0 : Int) 99, c ∉ knownCodes →
      weatherCodeToText c = "Unknown" ∧ weatherCodeToEmoji c = defaultEmoji := by
  decide

/-- C3 witness: code 4 is in 0-99, unknown, and maps to the fallbacks. -/
theorem unknown_code_fallback_witness :
    weatherCodeToText 4 = "Unknown" ∧ weatherCodeToEmoji 4 = defaultEmoji :=
  unknown_code_fallback 4 (by decide) (by decide)

/-- C4: the integer sets of the symbol classifier's rules are pairwise
disjoint, and first-match evaluation of the rules in any order (any permutation
of the rule list) agrees with the source's if-chain on every code. -/
theorem emojiRules_disjoint_order_irrelevant :
    (emojiRules.Pairwise fun r1 r2 => ∀ x ∈ r1.1, x ∉ r2.1) ∧
    ∀ l, emojiRules.Perm l → ∀ c, applyRules l c = weatherCodeToEmoji c := by
  refine ⟨by decide, ?_⟩
  intro l hp c
  rw [← applyRules_emojiRules c]
  exact (applyRules_perm_invariant hp c (by decide)).symm

/-- C4 witness: evaluating the rules in reverse order agrees with the source's
if-chain at code 61. -/
theorem emojiRules_disjoint_order_irrelevant_witness :
    applyRules emojiRules.reverse 61 = weatherCodeToEmoji 61 :=
  emojiRules_disjoint_order_irrelevant.2 emojiRules.reverse
    (List.reverse_perm emojiRules).symm 61

/-- C5: whenever the forecast response body lacks the `current_weather`
payload, the orchestrator ends with exactly the error message
"No current weather available" and no stored weather result. -/
theorem missing_current_weather (net : Network) (s : AppState) (q : String)
    (top : GeoResult) (rest : List GeoResult)
    (hgok : (net.geo q).ok = true)
    (hres : (net.geo q).results = some (top :: rest))
    (hfok : (net.forecast top.latitude top.longitude).ok = true)
    (hcw : (net.forecast top.latitude top.longitude).current_weather = none) :
    (fetchWeatherForCity net s q).state.error = some "No current weather available" ∧
    (fetchWeatherForCity net s q).state.weather = none := by
  simp [fetchWeatherForCity, hgok, hres, hfok, hcw, startFetch]

/-- C5 witness: a concrete network whose forecast body has no
`current_weather`. -/
theorem missing_current_weather_witness :
    (fetchWeatherForCity noWeatherNet emptyState "London").state.error =
        some "No current weather available" ∧
    (fetchWeatherForCity noWeatherNet emptyState "London").state.weather = none :=
  missing_current_weather noWeatherNet emptyState "London" londonGeo [] rfl rfl rfl rfl

/-- C6: a non-success geocoding response yields "Geocoding request failed" and
the forecast call is never issued; a non-success forecast response yields
"Weather request failed". -/
theorem http_failure_stage_messages (net : Network) (s : AppState) (q : String) :
    ((net.geo q).ok = false →
        (fetchWeatherForCity net s q).state.error = some "Geocoding request failed" ∧
        (fetchWeatherForCity net s q).forecastCalled = false) ∧
    (∀ (top : GeoResult) (rest : List GeoResult),
        (net.geo q).ok = true → (net.geo q).results = some (top :: rest) →
        (net.forecast top.latitude top.longitude).ok = false →
        (fetchWeatherForCity net s q).state.error = some "Weather request failed") := by
  constructor
  · intro hg
    simp [fetchWeatherForCity, hg, startFetch]
  · intro top rest hok hres hf
    simp [fetchWeatherForCity, hok, hres, hf, startFetch]

/-- C6 witness: concrete networks failing at each of the two stages. -/
theorem http_failure_stage_messages_witness :
    ((fetchWeatherForCity badGeoNet emptyState "London").state.error =
        some "Geocoding request failed" ∧
     (fetchWeatherForCity badGeoNet emptyState "London").forecastCalled = false) ∧
    (fetchWeatherForCity badForecastNet emptyState "London").state.error =
        some "Weather request failed" :=
  ⟨(http_failure_stage_messages badGeoNet emptyState "London").1 rfl,
   (http_failure_stage_messages badForecastNet emptyState "London").2 londonGeo [] rfl rfl rfl⟩

/-- C7: a geocoding response with a missing or empty results array yields the
not-found outcome: the stored message starts with "City not found", differs
from each of the three hard-error messages, and the forecast call is never
issued. -/
theorem empty_results_not_found (net : Network) (s : AppState) (q : String)
    (hok : (net.geo q).ok = true)
    (hres : (net.geo q).results = none ∨ (net.geo q).results = some []) :
    (fetchWeatherForCity net s q).state.error = some cityNotFoundMsg ∧
    (∃ tail, cityNotFoundMsg = "City not found" ++ tail) ∧
    cityNotFoundMsg ≠ "Geocoding request failed" ∧
    cityNotFoundMsg ≠ "Weather request failed" ∧
    cityNotFoundMsg ≠ "No current weather available" ∧
    (fetchWeatherForCity net s q).forecastCalled = false := by
  refine ⟨?_, ⟨". Try another name (e.g., \x27Delhi\x27, \x27San Francisco\x27).", by decide⟩,
    by decide, by decide, by decide, ?_⟩ <;>
    rcases hres with h | h <;> simp [fetchWeatherForCity, hok, h, startFetch]

/-- C7 witness: a concrete network returning an empty results array. -/
theorem empty_results_not_found_witness :
    (fetchWeatherForCity noResultsNet emptyState "Nonexistentplacexyz").state.error =
        some cityNotFoundMsg ∧
    (fetchWeatherForCity noResultsNet emptyState "Nonexistentplacexyz").forecastCalled = false :=
  ⟨(empty_results_not_found noResultsNet emptyState "Nonexistentplacexyz" rfl
      (Or.inr rfl)).1,
   (empty_results_not_found noResultsNet emptyState "Nonexistentplacexyz" rfl
      (Or.inr rfl)).2.2.2.2.2⟩

/-- A prior state holding a successful outcome, used to exhibit what a later
validation failure leaves behind. -/
def priorSuccessState : AppState :=
  { weather := some { cityName := "London, United Kingdom", latitude := 51.5,
                      longitude := -0.12, current := sampleWeather },
    loading := false, error := none }

/-- C8 counterexample: the validation failure path does not null the stored
weather.  Submitting an empty query from a state holding a prior successful
outcome sets the validation error but leaves the prior weather in place. -/
theorem validation_keeps_prior_weather_cex :
    (handleSubmit okNet priorSuccessState "").state.error =
        some "Please enter a city name." ∧
    (handleSubmit okNet priorSuccessState "").state.weather ≠ none := by decide

/-- C8 amended: within the orchestrator every failure is atomic — whenever an
error message is stored the stored weather is `none`, so a forecast-stage
failure leaves no trace of the resolved geocoding data — and the orchestrator's
final state is independent of the prior state (wholesale replacement, no
merging).  The validation path of the submit handler, by contrast, only sets
the error message and leaves the prior stored weather unchanged. -/
theorem fetch_failure_atomic_replacement (net : Network) (s t : AppState) (q : String) :
    ((fetchWeatherForCity net s q).state.error.isSome →
        (fetchWeatherForCity net s q).state.weather = none) ∧
    (fetchWeatherForCity net s q).state = (fetchWeatherForCity net t q).state := by
  constructor
  · intro h
    rcases hg : net.geo q with ⟨ok, res⟩
    rcases ok
    · simp [fetchWeatherForCity, hg, startFetch]
    · rcases res with _ | (_ | ⟨top, rest⟩)
      · simp [fetchWeatherForCity, hg, startFetch]
      · simp [fetchWeatherForCity, hg, startFetch]
      · rcases hf : net.forecast top.latitude top.longitude with ⟨fok, cw⟩
        rcases fok
        · simp [fetchWeatherForCity, hg, hf, startFetch]
        · rcases cw with _ | c
          · simp [fetchWeatherForCity, hg, hf, startFetch]
          · simp [fetchWeatherForCity, hg, hf, startFetch] at h
  · unfold fetchWeatherForCity
    simp only [startFetch_const]

/-- C8 witness: with the forecast stage failing, the error is stored, the
weather is `none`, and two different prior states end in the same state. -/
theorem fetch_failure_atomic_replacement_witness :
    (fetchWeatherForCity badForecastNet priorSuccessState "London").state.weather = none ∧
    (fetchWeatherForCity badForecastNet priorSuccessState "London").state =
      (fetchWeatherForCity badForecastNet emptyState "London").state :=
  ⟨(fetch_failure_atomic_replacement badForecastNet priorSuccessState emptyState "London").1
      (by decide),
   (fetch_failure_atomic_replacement badForecastNet priorSuccessState emptyState "London").2⟩

/-- C9: fixed points of the classifier: `describe 0 = "Clear sky"`,
`describe 95 = "Thunderstorm"`, `symbol 0` is the clear-sky symbol and no other
code maps to it, and for the end-to-end code 3: `describe 3 = "Overcast"` with
`symbol 3` the overcast symbol. -/
theorem classifier_fixed_points :
    weatherCodeToText 0 = "Clear sky" ∧
    weatherCodeToText 95 = "Thunderstorm" ∧
    weatherCodeToEmoji 0 = "\u201A\u00F2\u00C4\u00D4\u220F\u00E8" ∧
    (∀ c : Int, c ≠ 0 → weatherCodeToEmoji c ≠ "\u201A\u00F2\u00C4\u00D4\u220F\u00E8") ∧
    weatherCodeToText 3 = "Overcast" ∧
    weatherCodeToEmoji 3 = "\u201A\u00F2\u00C5\u00D4\u220F\u00E8" := by
  refine ⟨by decide, by decide, by decide, ?_, by decide, by decide⟩
  intro c hc
  unfold weatherCodeToEmoji
  rw [if_neg hc]
  split_ifs <;> decide

/-- C9 witness: code 5 is nonzero and does not map to the clear-sky symbol. -/
theorem classifier_fixed_points_witness :
    weatherCodeToEmoji 5 ≠ "\u201A\u00F2\u00C4\u00D4\u220F\u00E8" :=
  classifier_fixed_points.2.2.2.1 5 (by decide)

/-- C10: the orchestrator's entry updates set the loading flag to true, and on
every path (success, not-found, and each error) the final loading flag is
false. -/
theorem loading_flag_lifecycle :
    (∀ s : AppState, (startFetch s).loading = true) ∧
    (∀ (net : Network) (s : AppState) (q : String),
        (fetchWeatherForCity net s q).state.loading = false) := by
  refine ⟨fun s => rfl, ?_⟩
  intro net s q
  rcases hg : net.geo q with ⟨ok, res⟩
  rcases ok
  · simp [fetchWeatherForCity, hg]
  · rcases res with _ | (_ | ⟨top, rest⟩)
    · simp [fetchWeatherForCity, hg]
    · simp [fetchWeatherForCity, hg]
    · rcases hf : net.forecast top.latitude top.longitude with ⟨fok, cw⟩
      rcases fok
      · simp [fetchWeatherForCity, hg, hf]
      · rcases cw with _ | c <;> simp [fetchWeatherForCity, hg, hf]

end WeatherApp
